import Mathlib

/-!
Verification of the ODP traffic generator against its specification.

The development shallowly embeds the C sources:
* `odp_chksum_internal.h` — the Internet-checksum engine (`chksum_partial`,
  `chksum_finalize`);
* `odp_generator.c` — packet template construction, per-send refresh,
  burst transmission, inbound classification, worker-count resolution and
  the ping grace period.

Memory is modelled as a list of byte values (each < 256).  The machine is
modelled as big-endian, so `odp_cpu_to_be_16` is the identity on 16-bit
values and multi-byte loads read the most significant byte first.  The C
accumulators are `uint64_t`; for any buffer representable by a list
(length < 2^32) the 64-bit accumulator cannot overflow (the sum is below
2^62), so plain `Nat` addition is exact and no `% 2^64` reduction is
needed.
-/

/-! ### Checksum engine: `odp_chksum_internal.h` -/

/-- `read_u16` of the C source: an unaligned 16-bit load at the head of the
byte list, big-endian machine model. Bytes past the end read as 0 (the C
code never reads past `len`; out-of-range defaults are never exercised). -/
def read_u16 (b : List Nat) : Nat :=
  256 * b.getD 0 0 + b.getD 1 0

/-- `read_u32` of the C source: an unaligned 32-bit load at the head of the
byte list, big-endian machine model. -/
def read_u32 (b : List Nat) : Nat :=
  2 ^ 24 * b.getD 0 0 + 2 ^ 16 * b.getD 1 0 + 2 ^ 8 * b.getD 2 0 + b.getD 3 0

/-- `odp_cpu_to_be_16` on the big-endian machine model: the identity on
16-bit values. -/
def odp_cpu_to_be_16 (x : Nat) : Nat := x % 2 ^ 16

/-- `odp_be_to_cpu_16` on the big-endian machine model. -/
def odp_be_to_cpu_16 (x : Nat) : Nat := x % 2 ^ 16

/-- `odp_cpu_to_be_32` on the big-endian machine model. -/
def odp_cpu_to_be_32 (x : Nat) : Nat := x % 2 ^ 32

/-- `chksum_finalize` of `odp_chksum_internal.h`: fold the 64-bit partial
sum 64→32→16 bits by two rounds of addition; the final `& 0xffff` is the
C cast of the return value to `uint16_t`. -/
def chksum_finalize (sum : Nat) : Nat :=
  let sum1 := sum / 2 ^ 32 + sum % 2 ^ 32
  let sum2 := sum1 / 2 ^ 16 + sum1 % 2 ^ 16
  (sum2 / 2 ^ 16 + sum2) % 2 ^ 16

/-- The final byte flip of `chksum_partial` for odd offsets:
`((sum & 0xff00ff00ff00ff) << 8) | ((sum & 0xff00ff00ff00ff00) >> 8)`. -/
def chksum_swap (sum : Nat) : Nat :=
  ((sum &&& 0xff00ff00ff00ff) <<< 8) ||| ((sum &&& 0xff00ff00ff00ff00) >>> 8)

/-- The descending-size dword dispatch of `chksum_partial` (the
`switch (len >> 2)` with fall-through): sum `n` 32-bit words. -/
def chksum_dwords : Nat → List Nat → Nat
  | 0, _ => 0
  | n + 1, b => read_u32 b + chksum_dwords n (b.drop 4)

/-- The part of `chksum_partial` after the main loop: the dword dispatch
(`len >> 2` dwords, `len < 32` here so at most 7), then a trailing
half-word, then a trailing single byte summed as the high byte of a
16-bit value. -/
def chksum_tail (b : List Nat) : Nat :=
  let s := chksum_dwords (b.length / 4) b
  let b := b.drop (4 * (b.length / 4))
  -- len &= 3: at most 3 bytes remain
  let s := if 2 ≤ b.length then s + read_u16 b else s
  let b := if 2 ≤ b.length then b.drop 2 else b
  if 1 ≤ b.length then s + odp_cpu_to_be_16 (b.getD 0 0 * 2 ^ 8) else s

/-- The `while (len >= 32)` main loop of `chksum_partial`: 8 dwords per
round, then the tail dispatch. -/
def chksum_main_loop (b : List Nat) : Nat :=
  if _h : 32 ≤ b.length then
    read_u32 b + read_u32 (b.drop 4) + read_u32 (b.drop 8) + read_u32 (b.drop 12) +
    read_u32 (b.drop 16) + read_u32 (b.drop 20) + read_u32 (b.drop 24) + read_u32 (b.drop 28) +
    chksum_main_loop (b.drop 32)
  else
    chksum_tail b
termination_by b.length
decreasing_by simp [List.length_drop]; omega

/-- `chksum_partial` of `odp_chksum_internal.h`.  `addr` is the `len` bytes
the C function reads (so C's `len` is `addr.length`); `offset` is the byte
offset from the start of the IP header; `align` is the address value modulo
4 (only its low 2 bits are inspected by the C code); `unaligned` is the
compile-time `_ODP_UNALIGNED` flag (efficient unaligned loads available).
When unaligned access must be avoided, the C code first consumes one byte
(if the address is odd, toggling the offset parity) and then one half-word
(if the address is ≡ 2 mod 4) before the aligned main loop. -/
def chksum_partial (addr : List Nat) (offset : Nat) (align : Nat) (unaligned : Bool) : Nat :=
  let offset := offset &&& 1
  if unaligned then
    let sum := chksum_main_loop addr
    if offset ≠ 0 then chksum_swap sum else sum
  else
    let pre1 : List Nat × Nat × Nat × Nat :=
      if align &&& 1 = 1 ∧ 1 ≤ addr.length then
        (addr.drop 1, odp_cpu_to_be_16 (addr.getD 0 0), offset ^^^ 1, align + 1)
      else
        (addr, 0, offset, align)
    match pre1 with
  | (b, sum, offset, align) =>
    let pre2 : List Nat × Nat :=
      if align &&& 2 = 2 ∧ 2 ≤ b.length then (b.drop 2, sum + read_u16 b) else (b, sum)
    match pre2 with
    | (b, sum) =>
      let sum := sum + chksum_main_loop b
      if offset ≠ 0 then chksum_swap sum else sum

/-! ### The reference byte-by-byte RFC 1071 Internet checksum

The spec's reference: bytes are paired into 16-bit big-endian words
starting at the given offset parity (a byte at even parity is the high
byte of its word, a byte at odd parity the low byte), the words are summed,
the sum is folded to 16 bits by repeated end-around carry, and the result
is complemented. -/

/-- Byte-by-byte word sum: each byte contributes `256·b` at even parity
and `b` at odd parity. -/
def ref_sum16 : Nat → List Nat → Nat
  | _, [] => 0
  | parity, x :: xs => (if parity % 2 = 0 then 256 * x else x) + ref_sum16 (parity + 1) xs

/-- Fold a sum to 16 bits by repeated end-around carry. -/
def ref_fold (n : Nat) : Nat :=
  if h : n < 2 ^ 16 then n else ref_fold (n / 2 ^ 16 + n % 2 ^ 16)
termination_by n
decreasing_by
  have hd : n / 2 ^ 16 ≥ 1 := Nat.one_le_div_iff (by norm_num) |>.mpr (by omega)
  have : 1 * (n / 2 ^ 16) < 2 ^ 16 * (n / 2 ^ 16) :=
    Nat.mul_lt_mul_of_lt_of_le (by norm_num) (Nat.le_refl _) (by omega)
  omega

/-- The reference byte-by-byte RFC 1071 Internet checksum of a buffer at
the given offset parity, complemented (`~` on `uint16_t`). -/
def internet_checksum (parity : Nat) (b : List Nat) : Nat :=
  2 ^ 16 - 1 - ref_fold (ref_sum16 parity b)

/-- The buffer exhibiting the lost end-around carry: 65537 all-ones dwords
followed by the big-endian dword 0x00010000, 262152 bytes in total.  Its
64-bit partial sum is `65537 * 0xFFFFFFFF + 0x10000 = 0x10000FFFFFFFF`. -/
def c1_bad_buf : List Nat :=
  List.replicate 262148 0xff ++ [0x00, 0x01, 0x00, 0x00]

/-! ### Generator data model: `odp_generator.c` -/

/-- `APPL_MODE_UDP` -/
def APPL_MODE_UDP : Nat := 0

/-- `APPL_MODE_PING` -/
def APPL_MODE_PING : Nat := 1

/-- `APPL_MODE_RCV` -/
def APPL_MODE_RCV : Nat := 2

/-- `ODPH_ETHHDR_LEN` -/
def ODPH_ETHHDR_LEN : Nat := 14

/-- `ODPH_IPV4HDR_LEN` -/
def ODPH_IPV4HDR_LEN : Nat := 20

/-- `ODPH_UDPHDR_LEN` -/
def ODPH_UDPHDR_LEN : Nat := 8

/-- `ODPH_ICMPHDR_LEN` -/
def ODPH_ICMPHDR_LEN : Nat := 8

/-- `ODPH_IPPROTO_UDP` -/
def ODPH_IPPROTO_UDP : Nat := 17

/-- `ODPH_IPPROTO_ICMPV4` -/
def ODPH_IPPROTO_ICMPV4 : Nat := 1

/-- `ICMP_ECHO` (echo request type) -/
def ICMP_ECHO : Nat := 8

/-- `ICMP_ECHOREPLY` (echo reply type) -/
def ICMP_ECHOREPLY : Nat := 0

/-- `ODP_TIME_MSEC_IN_NS` -/
def ODP_TIME_MSEC_IN_NS : Nat := 1000000

/-- `ODP_TIME_USEC_IN_NS` -/
def ODP_TIME_USEC_IN_NS : Nat := 1000

/-- The per-worker counters (`counters_t`).  The C fields are `uint64_t`;
none of the modelled executions can approach 2^64, so `Nat` is exact. -/
structure counters_t where
  ctr_pkt_snd : Nat
  ctr_pkt_snd_drop : Nat
  ctr_pkt_rcv : Nat
  ctr_seq : Nat
  ctr_udp_rcv : Nat
  ctr_icmp_reply_rcv : Nat
deriving Repr, DecidableEq

/-- The parsed command-line run configuration (`appl_args_t`), the fields
the modelled subsystem reads or writes. -/
structure appl_args_t where
  num_workers : Nat
  if_count : Nat
  srcmac : List Nat
  dstmac : List Nat
  srcip : Nat
  dstip : Nat
  srcport : Nat
  dstport : Nat
  mode : Nat
  number : Int
  payload : Nat
  timeout : Int
  interval : Int
  udp_tx_burst : Nat
  csum : Bool
deriving Repr, DecidableEq

/-- The packet-output configuration bits the generator consults
(`odp_pktout_config_opt_t.bit`). -/
structure pktout_config_t where
  ipv4_chksum : Bool
  udp_chksum : Bool
deriving Repr, DecidableEq

/-- Ethernet header fields written by the template builders. -/
structure eth_hdr_t where
  dst : List Nat
  src : List Nat
  ethtype : Nat
deriving Repr, DecidableEq

/-- IPv4 header fields (`odph_ipv4hdr_t`).  Multi-byte fields hold the
stored (network order) value; on the big-endian machine model
`odp_cpu_to_be_16` is the identity.  `tos` and `frag_offset` are never
written by the generator and keep whatever the freshly allocated buffer
held. -/
structure ipv4_hdr_t where
  ver_ihl : Nat
  tos : Nat
  tot_len : Nat
  id : Nat
  frag_offset : Nat
  ttl : Nat
  proto : Nat
  chksum : Nat
  src_addr : Nat
  dst_addr : Nat
deriving Repr, DecidableEq

/-- UDP header fields (`odph_udphdr_t`). -/
structure udp_hdr_t where
  src_port : Nat
  dst_port : Nat
  length : Nat
  chksum : Nat
deriving Repr, DecidableEq

/-- ICMP header fields (`odph_icmphdr_t`), echo variant. -/
structure icmp_hdr_t where
  icmp_type : Nat
  code : Nat
  chksum : Nat
  echo_id : Nat
  echo_sequence : Nat
deriving Repr, DecidableEq

/-- A UDP template packet: headers, payload bytes and the packet metadata
the generator programs (layer offsets, protocol flags). -/
structure udp_pkt_t where
  eth : eth_hdr_t
  ip : ipv4_hdr_t
  udp : udp_hdr_t
  payload : List Nat
  l2_offset : Nat
  l3_offset : Nat
  l4_offset : Nat
  has_ipv4 : Bool
  has_udp : Bool
deriving Repr, DecidableEq

/-- An ICMP template packet. -/
structure icmp_pkt_t where
  eth : eth_hdr_t
  ip : ipv4_hdr_t
  icmp : icmp_hdr_t
  payload : List Nat
  l2_offset : Nat
  l3_offset : Nat
  l4_offset : Nat
deriving Repr, DecidableEq

/-- The indeterminate contents of a freshly allocated packet buffer: the
bytes the generator leaves unwritten (`odp_packet_alloc` does not zero
memory). -/
structure fresh_buf_t where
  tos : Nat
  frag_offset : Nat
  udp_chksum0 : Nat
  icmp_payload : List Nat
  udp_payload : List Nat
  l4_offset0 : Nat
deriving Repr, DecidableEq

/-- Big-endian bytes of a 16-bit stored value. -/
def be16_bytes (x : Nat) : List Nat := [x / 2 ^ 8 % 2 ^ 8, x % 2 ^ 8]

/-- Big-endian bytes of a 32-bit stored value. -/
def be32_bytes (x : Nat) : List Nat :=
  [x / 2 ^ 24 % 2 ^ 8, x / 2 ^ 16 % 2 ^ 8, x / 2 ^ 8 % 2 ^ 8, x % 2 ^ 8]

/-- The 8 bytes `memcpy` writes for a `uint64_t` on the big-endian machine
model: most significant byte first. -/
def u64_bytes (x : Nat) : List Nat :=
  [x / 2 ^ 56 % 2 ^ 8, x / 2 ^ 48 % 2 ^ 8, x / 2 ^ 40 % 2 ^ 8, x / 2 ^ 32 % 2 ^ 8,
   x / 2 ^ 24 % 2 ^ 8, x / 2 ^ 16 % 2 ^ 8, x / 2 ^ 8 % 2 ^ 8, x % 2 ^ 8]

/-- Wire bytes of the 20-byte IPv4 header. -/
def ipv4_hdr_bytes (ip : ipv4_hdr_t) : List Nat :=
  [ip.ver_ihl % 2 ^ 8, ip.tos % 2 ^ 8] ++ be16_bytes ip.tot_len ++ be16_bytes ip.id ++
  be16_bytes ip.frag_offset ++ [ip.ttl % 2 ^ 8, ip.proto % 2 ^ 8] ++ be16_bytes ip.chksum ++
  be32_bytes ip.src_addr ++ be32_bytes ip.dst_addr

/-- Wire bytes of the 8-byte ICMP header. -/
def icmp_hdr_bytes (icmp : icmp_hdr_t) : List Nat :=
  [icmp.icmp_type % 2 ^ 8, icmp.code % 2 ^ 8] ++ be16_bytes icmp.chksum ++
  be16_bytes icmp.echo_id ++ be16_bytes icmp.echo_sequence

/-- Wire bytes of the 8-byte UDP header. -/
def udp_hdr_bytes (udp : udp_hdr_t) : List Nat :=
  be16_bytes udp.src_port ++ be16_bytes udp.dst_port ++
  be16_bytes udp.length ++ be16_bytes udp.chksum

/-- Modelled from the spec: `odp_chksum_ones_comp16` (not under `src/`) —
the 16-bit ones' complement sum of a buffer, the Checksum Engine's
uncomplemented result. -/
def odp_chksum_ones_comp16 (b : List Nat) : Nat :=
  ref_fold (ref_sum16 0 b)

/-- Modelled from the spec: `odph_ipv4_udp_chksum` (not under `src/`) —
the UDP checksum over the IPv4 pseudo-header, UDP header (checksum field
zero) and payload, complemented. -/
def odph_ipv4_udp_chksum (ip : ipv4_hdr_t) (udp : udp_hdr_t) (payload : List Nat) : Nat :=
  let pseudo := be32_bytes ip.src_addr ++ be32_bytes ip.dst_addr ++
    [0, ip.proto % 2 ^ 8] ++ be16_bytes udp.length
  2 ^ 16 - 1 - ref_fold (ref_sum16 0 (pseudo ++ udp_hdr_bytes { udp with chksum := 0 } ++ payload))

/-! ### Packet template builders and per-send refreshers -/

/-- `setup_udp_pkt_ref`: build one UDP reference packet.  Returns the run
configuration (the function reads but never writes `args->appl`) and the
packet, or `none` when `odp_packet_alloc` fails (`alloc_ok = false`).
`fresh` holds the indeterminate bytes of the freshly allocated buffer. -/
def setup_udp_pkt_ref (cfg : appl_args_t) (pktout_cfg : pktout_config_t)
    (alloc_ok : Bool) (fresh : fresh_buf_t) : appl_args_t × Option udp_pkt_t :=
  if !alloc_ok then (cfg, none) else
    let eth : eth_hdr_t := { src := cfg.srcmac, dst := cfg.dstmac, ethtype := 0x0800 }
    let ip : ipv4_hdr_t :=
      { dst_addr := odp_cpu_to_be_32 cfg.dstip
        src_addr := odp_cpu_to_be_32 cfg.srcip
        ver_ihl := 4 * 2 ^ 4 + 5
        tot_len := odp_cpu_to_be_16 (cfg.payload + ODPH_UDPHDR_LEN + ODPH_IPV4HDR_LEN)
        proto := ODPH_IPPROTO_UDP
        id := 0
        ttl := 64
        chksum := 0
        tos := fresh.tos
        frag_offset := fresh.frag_offset }
    let udp0 : udp_hdr_t :=
      { src_port := odp_cpu_to_be_16 cfg.srcport
        dst_port := odp_cpu_to_be_16 cfg.dstport
        length := odp_cpu_to_be_16 (cfg.payload + ODPH_UDPHDR_LEN)
        chksum := fresh.udp_chksum0 }
    let udp : udp_hdr_t :=
      if !pktout_cfg.udp_chksum then
        { udp0 with chksum := odph_ipv4_udp_chksum ip udp0 fresh.udp_payload }
      else udp0
    (cfg, some
      { eth := eth, ip := ip, udp := udp, payload := fresh.udp_payload
        l2_offset := 0, l3_offset := ODPH_ETHHDR_LEN
        l4_offset := ODPH_ETHHDR_LEN + ODPH_IPV4HDR_LEN
        has_ipv4 := true, has_udp := true })

/-- `setup_udp_pkt`: refresh the per-send mutable fields of a UDP
reference packet: issue the next sequence number (`ctr_seq % 0xFFFF` — the
C literal is 0xFFFF = 65535) into the IPv4 id field, recompute the IPv4
header checksum when not offloaded, and reprogram layer offsets when any
checksum is offloaded.  Returns the configuration (read-only here), the
refreshed packet, the counters and the C return value (always 0). -/
def setup_udp_pkt (cfg : appl_args_t) (pktout_cfg : pktout_config_t)
    (pkt : udp_pkt_t) (counters : counters_t) :
    appl_args_t × udp_pkt_t × counters_t × Int :=
  let seq := counters.ctr_seq % 0xFFFF
  let counters := { counters with ctr_seq := counters.ctr_seq + 1 }
  let ip := { pkt.ip with id := odp_cpu_to_be_16 seq }
  let ip :=
    if !pktout_cfg.ipv4_chksum then
      let ip := { ip with chksum := 0 }
      { ip with chksum := 2 ^ 16 - 1 - odp_chksum_ones_comp16 (ipv4_hdr_bytes ip) }
    else ip
  let pkt := { pkt with ip := ip }
  let pkt :=
    if pktout_cfg.ipv4_chksum || pktout_cfg.udp_chksum then
      { pkt with l2_offset := 0, l3_offset := ODPH_ETHHDR_LEN
                 l4_offset := ODPH_ETHHDR_LEN + ODPH_IPV4HDR_LEN }
    else pkt
  (cfg, pkt, counters, 0)

/-- `setup_icmp_pkt_ref`: build one ICMP echo-request reference packet.
The C function begins with `args->appl.payload = 56;` — a write to the
shared run configuration — so the returned configuration differs from the
input whenever `cfg.payload ≠ 56`. -/
def setup_icmp_pkt_ref (cfg : appl_args_t) (pktout_cfg : pktout_config_t)
    (alloc_ok : Bool) (fresh : fresh_buf_t) : appl_args_t × Option icmp_pkt_t :=
  let _ := pktout_cfg
  let cfg := { cfg with payload := 56 }
  if !alloc_ok then (cfg, none) else
    let eth : eth_hdr_t := { src := cfg.srcmac, dst := cfg.dstmac, ethtype := 0x0800 }
    let ip : ipv4_hdr_t :=
      { dst_addr := odp_cpu_to_be_32 cfg.dstip
        src_addr := odp_cpu_to_be_32 cfg.srcip
        ver_ihl := 4 * 2 ^ 4 + 5
        ttl := 64
        tot_len := odp_cpu_to_be_16 (cfg.payload + ODPH_ICMPHDR_LEN + ODPH_IPV4HDR_LEN)
        proto := ODPH_IPPROTO_ICMPV4
        id := 0
        chksum := 0
        tos := fresh.tos
        frag_offset := fresh.frag_offset }
    let icmp : icmp_hdr_t :=
      { icmp_type := ICMP_ECHO, code := 0, echo_id := 0, echo_sequence := 0, chksum := 0 }
    (cfg, some
      { eth := eth, ip := ip, icmp := icmp, payload := fresh.icmp_payload
        l2_offset := 0, l3_offset := ODPH_ETHHDR_LEN, l4_offset := fresh.l4_offset0 })

/-- `setup_icmp_pkt`: refresh an ICMP echo-request reference packet:
issue the next sequence number (`ctr_seq % 0xffff`) into the IPv4 id
field, copy that id into the ICMP echo sequence field, stamp the current
time into the first 8 payload bytes, recompute checksums, and reprogram
layer offsets when the IPv4 checksum is offloaded.  `tval` is
`odp_time_to_ns(odp_time_local())`. -/
def setup_icmp_pkt (cfg : appl_args_t) (pktout_cfg : pktout_config_t)
    (pkt : icmp_pkt_t) (counters : counters_t) (tval : Nat) :
    appl_args_t × icmp_pkt_t × counters_t × Int :=
  let seq := counters.ctr_seq % 0xffff
  let counters := { counters with ctr_seq := counters.ctr_seq + 1 }
  let ip := { pkt.ip with id := odp_cpu_to_be_16 seq }
  let ip :=
    if !pktout_cfg.ipv4_chksum then
      let ip := { ip with chksum := 0 }
      { ip with chksum := 2 ^ 16 - 1 - odp_chksum_ones_comp16 (ipv4_hdr_bytes ip) }
    else ip
  let icmp := { pkt.icmp with echo_sequence := ip.id }
  let payload := u64_bytes tval ++ pkt.payload.drop 8
  let icmp := { icmp with chksum := 0 }
  let csum_bytes := (icmp_hdr_bytes icmp ++ payload).take (cfg.payload + ODPH_ICMPHDR_LEN)
  let icmp := { icmp with chksum := 2 ^ 16 - 1 - odp_chksum_ones_comp16 csum_bytes }
  let pkt := { pkt with ip := ip, icmp := icmp, payload := payload }
  let pkt :=
    if pktout_cfg.ipv4_chksum then
      { pkt with l2_offset := 0, l3_offset := ODPH_ETHHDR_LEN
                 l4_offset := ODPH_ETHHDR_LEN + ODPH_IPV4HDR_LEN }
    else pkt
  (cfg, pkt, counters, 0)

/-! ### Reference-array and burst-array construction -/

/-- The exit index of the allocation loop in `setup_pkt_ref_array`: the
number of elements allocated before the first allocation failure (the
whole array when every allocation succeeds).  `allocs` gives the outcome
of `(*setup_ref)(pool, pktout_cfg)` per loop iteration. -/
def ref_array_exit : List Bool → Nat
  | [] => 0
  | ok :: rest => if ok then 1 + ref_array_exit rest else 0

/-- Outcome of `setup_pkt_ref_array`: the C return value, the number of
packets the loop allocated and the number the rollback freed. -/
structure ref_array_result_t where
  ret : Int
  allocated : Nat
  freed : Nat
deriving Repr, DecidableEq

/-- `setup_pkt_ref_array`: allocate reference packets until the first
failure; if the loop stopped early (`i < pkt_ref_array_size`), free the
`i` packets already allocated (`odp_packet_free_multi(pkt_ref_array, i)`)
and fail. -/
def setup_pkt_ref_array (allocs : List Bool) : ref_array_result_t :=
  let n := allocs.length
  let i := ref_array_exit allocs
  if i < n then { ret := -1, allocated := i, freed := i }
  else { ret := 0, allocated := n, freed := 0 }

/-- The exit index of the loop in `setup_pkt_array`: a slot succeeds when
its `(*setup_pkt)` call returns 0 and `odp_packet_ref_static` returns a
valid handle.  Each entry of `steps` is that pair of outcomes. -/
def pkt_array_exit : List (Bool × Bool) → Nat
  | [] => 0
  | (setup_ok, ref_ok) :: rest =>
    if setup_ok && ref_ok then 1 + pkt_array_exit rest else 0

/-- Outcome of `setup_pkt_array`: the C return value, the number of
send-ready aliases the loop produced and the number the rollback freed. -/
structure pkt_array_result_t where
  ret : Int
  aliases : Nat
  freed : Nat
deriving Repr, DecidableEq

/-- `setup_pkt_array`: refresh each reference packet and produce its
static-reference alias until the first failure at slot `i`; on failure the
rollback frees `i - 1` aliases (`odp_packet_free_multi(pkt_array, i - 1)`,
guarded by `if (i)`), although `i` aliases exist.  A slot whose
`setup_pkt` fails, or whose `odp_packet_ref_static` returns the invalid
handle, produces no alias itself. -/
def setup_pkt_array (steps : List (Bool × Bool)) : pkt_array_result_t :=
  let n := steps.length
  let i := pkt_array_exit steps
  if i < n then
    { ret := -1, aliases := i, freed := if i ≠ 0 then i - 1 else 0 }
  else { ret := 0, aliases := n, freed := 0 }

/-! ### The burst transmit loop of `gen_send_thread` -/

/-- Outcome of the `for (burst_start = 0, burst_size = pkt_array_size;;)`
transmit loop: the number of `odp_pktout_send` calls made, the total added
to `ctr_pkt_snd_drop`, the number of packets freed after a failed send,
`burst_size` when the loop exits, and whether the loop exited (`false`
when the oracle ran out of responses first). -/
structure tx_run_t where
  calls : Nat
  drops : Nat
  freed : Nat
  burst_size : Nat
  complete : Bool
deriving Repr, DecidableEq

/-- The transmit loop, driven by the per-call results of
`odp_pktout_send` (`oracle`).  `ret == burst_size` ends the burst;
`0 ≤ ret < burst_size` counts `burst_size - ret` drops and retries the
remainder (`burst_start += ret; burst_size -= ret; continue`); any other
result frees the remaining `burst_size` packets and ends the burst. -/
def send_loop (oracle : List Int) (burst_size : Nat) : tx_run_t :=
  match oracle with
  | [] => { calls := 0, drops := 0, freed := 0, burst_size := burst_size, complete := false }
  | ret :: rest =>
    if ret = (burst_size : Int) then
      { calls := 1, drops := 0, freed := 0, burst_size := 0, complete := true }
    else if 0 ≤ ret ∧ ret < (burst_size : Int) then
      let r := send_loop rest (burst_size - ret.toNat)
      { calls := r.calls + 1, drops := (burst_size - ret.toNat) + r.drops
        freed := r.freed, burst_size := r.burst_size, complete := r.complete }
    else
      { calls := 1, drops := 0, freed := burst_size, burst_size := burst_size, complete := true }

/-- The `ctr_pkt_snd` increment after the loop:
`pkt_array_size - burst_size`. -/
def sent_inc (oracle : List Int) (pkt_array_size : Nat) : Nat :=
  pkt_array_size - (send_loop oracle pkt_array_size).burst_size

/-! ### Receiver and classifier -/

/-- An inbound packet as the receiver observes it through the packet-IO
accessors: parse flags, protocol fields, the checksum status flags, the
hard-error flag, and (for ICMP) the echo fields and the embedded send
timestamp (the first 8 payload bytes read as a `uint64_t`). -/
structure rx_pkt_t where
  has_ipv4 : Bool
  proto : Nat
  icmp_type : Nat
  icmp_seq : Nat
  tsend : Nat
  l3_csum_bad : Bool
  l4_csum_bad : Bool
  has_error : Bool
deriving Repr, DecidableEq

/-- Decimal rendering of the `"%" PRIu64 ".%.03" PRIu64 " ms"` RTT part
of the reply message: whole milliseconds, a dot, microseconds zero-padded
to (at least) three digits. -/
def pad3 (n : Nat) : String :=
  if n < 10 then "00" ++ toString n
  else if n < 100 then "0" ++ toString n
  else toString n

/-- The RTT portion of the echo-reply message. -/
def rtt_string (rtt_ms rtt_us : Nat) : String :=
  toString rtt_ms ++ "." ++ pad3 rtt_us ++ " ms"

/-- `process_icmp_pkt`: an echo reply increments `ctr_icmp_reply_rcv` and
formats the RTT from the receive time and the embedded send time; an echo
request only formats a log line.  `trecv` is
`odp_time_to_ns(odp_time_local())` at receive time. -/
def process_icmp_pkt (counters : counters_t) (icmp_type : Nat)
    (tsend trecv : Nat) (icmp_seq : Nat) : counters_t × String :=
  if icmp_type = ICMP_ECHOREPLY then
    let counters :=
      { counters with ctr_icmp_reply_rcv := counters.ctr_icmp_reply_rcv + 1 }
    let rtt_ms := (trecv - tsend) / ODP_TIME_MSEC_IN_NS
    let rtt_us := (trecv - tsend) / ODP_TIME_USEC_IN_NS - 1000 * rtt_ms
    (counters, "ICMP Echo Reply seq " ++ toString (odp_be_to_cpu_16 icmp_seq) ++
      " time " ++ rtt_string rtt_ms rtt_us)
  else if icmp_type = ICMP_ECHO then (counters, "Icmp Echo Request")
  else (counters, "")

/-- The per-packet body of `print_pkts`: non-IPv4 packets are skipped;
IPv4 packets count into `ctr_pkt_rcv`; UDP counts into `ctr_udp_rcv`;
ICMP is handed to `process_icmp_pkt`. -/
def print_pkts_step (trecv : Nat) (counters : counters_t) (p : rx_pkt_t) : counters_t :=
  if !p.has_ipv4 then counters
  else
    let counters := { counters with ctr_pkt_rcv := counters.ctr_pkt_rcv + 1 }
    let counters :=
      if p.proto = ODPH_IPPROTO_UDP then
        { counters with ctr_udp_rcv := counters.ctr_udp_rcv + 1 }
      else counters
    if p.proto = ODPH_IPPROTO_ICMPV4 then
      (process_icmp_pkt counters p.icmp_type p.tsend trecv p.icmp_seq).1
    else counters

/-- `print_pkts` over the surviving packets of one drained burst. -/
def print_pkts (trecv : Nat) (counters : counters_t) (pkts : List rx_pkt_t) : counters_t :=
  pkts.foldl (print_pkts_step trecv) counters

/-- The error-filter loop of `gen_recv_thread`: packets flagged with a
hard error (`odp_packet_has_error`) are freed immediately; the checksum
status flags are only printed.  Returns the surviving packets in order and
the number freed. -/
def collect_pkts : List rx_pkt_t → List rx_pkt_t × Nat
  | [] => ([], 0)
  | e :: es =>
    let (ps, f) := collect_pkts es
    if e.has_error then (ps, f + 1) else (e :: ps, f)

/-- Outcome of one iteration of the receive loop: the counters after
classification, the number of packets freed as hard errors, and the
number of survivors freed together at iteration end. -/
structure rx_iter_t where
  counters : counters_t
  freed_err : Nat
  freed_end : Nat
deriving Repr, DecidableEq

/-- One iteration of the `gen_recv_thread` loop body over the drained
events. -/
def gen_recv_iteration (trecv : Nat) (counters : counters_t)
    (events : List rx_pkt_t) : rx_iter_t :=
  let (pkts, freed_err) := collect_pkts events
  { counters := print_pkts trecv counters pkts
    freed_err := freed_err
    freed_end := pkts.length }

/-! ### Worker-count resolution and the ping grace period -/

/-- The worker-count clamp of `main`: in ping mode fewer than two
available workers is a fatal error (`exit(EXIT_FAILURE)`, modelled as
`none`) and otherwise the count is forced to exactly two; other modes
keep the resolved count. -/
def resolve_num_workers (mode : Nat) (num_workers : Nat) : Option Nat :=
  if mode = APPL_MODE_PING then
    if num_workers < 2 then none else some 2
  else some num_workers

/-- The `while (args->appl.timeout >= 0)` loop of `garceful_stop_ping`:
`obs n` is the pair (summed sent, summed replies) the n-th iteration
reads; the loop exits once replies have caught up, else it sleeps and
decrements the shared `args->appl.timeout`. -/
def stop_ping_loop (obs : Nat → Nat × Nat) (idx : Nat) (timeout : Int) : Int :=
  if timeout < 0 then timeout
  else if (obs idx).2 ≥ (obs idx).1 then timeout
  else stop_ping_loop obs (idx + 1) (timeout - 1)
termination_by (timeout + 1).toNat
decreasing_by omega

/-- `garceful_stop_ping` (sic): a no-op outside ping mode; in ping mode it
polls the counters and decrements the shared configuration's `timeout`
field once per second until replies catch up with sends or the timeout is
exhausted. -/
def garceful_stop_ping (obs : Nat → Nat × Nat) (cfg : appl_args_t) : appl_args_t :=
  if cfg.mode ≠ APPL_MODE_PING then cfg
  else { cfg with timeout := stop_ping_loop obs 0 cfg.timeout }

/-! ### Iterated sequence issue on a single UDP worker

In UDP mode with a single worker (`thread_cnt = 1`) the inter-burst
cursor jump `seq_step = tx_burst_size * (thread_cnt - 1)` is 0, so the
sequence cursor advances only inside `setup_udp_pkt`: consecutive sends
are consecutive applications of the refresher. -/

/-- One application of `setup_udp_pkt` viewed as a transition of the
(counters, reference packet) state. -/
def udp_refresh_state (cfg : appl_args_t) (pktout_cfg : pktout_config_t)
    (s : counters_t × udp_pkt_t) : counters_t × udp_pkt_t :=
  let r := setup_udp_pkt cfg pktout_cfg s.2 s.1
  (r.2.2.1, r.2.1)

/-- The IPv4 id value written by the (n+1)-st consecutive send of a
single UDP worker starting from state `(c0, p0)`. -/
def udp_issued (cfg : appl_args_t) (pktout_cfg : pktout_config_t)
    (c0 : counters_t) (p0 : udp_pkt_t) (n : Nat) : Nat :=
  (((udp_refresh_state cfg pktout_cfg)^[n + 1]) (c0, p0)).2.ip.id

/-! ### Theorems

First the shared helper lemmas, then one theorem (with witness where
needed) per claim. -/

theorem getD_replicate_append_ff (m i : Nat) (t : List Nat) (h : i < m) :
    (List.replicate m (255:Nat) ++ t).getD i 0 = 255 := by
  rw [List.getD_eq_getElem?_getD, List.getElem?_append_left (by simp [h]),
      List.getElem?_replicate, if_pos h]
  rfl

theorem read_u32_replicate_ff (m : Nat) (t : List Nat) (h : 4 ≤ m) :
    read_u32 (List.replicate m 255 ++ t) = 0xFFFFFFFF := by
  simp only [read_u32]
  rw [getD_replicate_append_ff m 0 t (by omega), getD_replicate_append_ff m 1 t (by omega),
      getD_replicate_append_ff m 2 t (by omega), getD_replicate_append_ff m 3 t (by omega)]
  norm_num

theorem chksum_main_loop_rep32 (t : List Nat) :
    chksum_main_loop (List.replicate 32 255 ++ t) = 34359738360 + chksum_main_loop t := by
  rw [chksum_main_loop, dif_pos (by simp)]
  have hdrop : ∀ n : Nat, n ≤ 32 →
      (List.replicate 32 (255:Nat) ++ t).drop n = List.replicate (32 - n) 255 ++ t := by
    intro n hn
    rw [List.drop_append_of_le_length (by simp [hn]), List.drop_replicate]
  rw [hdrop 4 (by norm_num), hdrop 8 (by norm_num), hdrop 12 (by norm_num),
      hdrop 16 (by norm_num), hdrop 20 (by norm_num), hdrop 24 (by norm_num),
      hdrop 28 (by norm_num), hdrop 32 (by norm_num)]
  rw [read_u32_replicate_ff 32 t (by norm_num), read_u32_replicate_ff 28 t (by norm_num),
      read_u32_replicate_ff 24 t (by norm_num), read_u32_replicate_ff 20 t (by norm_num),
      read_u32_replicate_ff 16 t (by norm_num), read_u32_replicate_ff 12 t (by norm_num),
      read_u32_replicate_ff 8 t (by norm_num), read_u32_replicate_ff 4 t (by norm_num)]
  norm_num

theorem chksum_main_loop_rep32_mul (k : Nat) (t : List Nat) :
    chksum_main_loop (List.replicate (32 * k) 255 ++ t) =
      k * 34359738360 + chksum_main_loop t := by
  induction k with
  | zero => simp
  | succ k ih =>
    have e : 32 * (k + 1) = 32 + 32 * k := by ring
    rw [e, List.replicate_add, List.append_assoc, chksum_main_loop_rep32, ih]
    ring

/-- The 64-bit partial sum the checksum engine accumulates over
`c1_bad_buf`: `0x10000FFFFFFFF`. -/
theorem c1_partial_value :
    chksum_partial c1_bad_buf 0 0 true = 281479271677951 := by
  have e : c1_bad_buf = List.replicate (32 * 8192) 255 ++ [255, 255, 255, 255, 0, 1, 0, 0] := by
    show List.replicate 262148 (255:Nat) ++ [0, 1, 0, 0] = _
    rw [show (32 * 8192 : Nat) = 262144 by norm_num,
        show (262148 : Nat) = 262144 + 4 by norm_num, List.replicate_add, List.append_assoc]
    rfl
  have etail : chksum_main_loop [255, 255, 255, 255, 0, 1, 0, 0] = 4295032831 := by
    rw [chksum_main_loop, dif_neg (by simp)]
    decide
  rw [show chksum_partial c1_bad_buf 0 0 true = chksum_main_loop c1_bad_buf from rfl,
      e, chksum_main_loop_rep32_mul, etail]

theorem ref_sum16_parity (b : List Nat) :
    ∀ p q : Nat, p % 2 = q % 2 → ref_sum16 p b = ref_sum16 q b := by
  induction b with
  | nil => intro p q _; rfl
  | cons x xs ih =>
    intro p q h
    simp only [ref_sum16, h, ih (p + 1) (q + 1) (by omega)]

theorem ref_sum16_rep2_mul (k : Nat) (t : List Nat) (p : Nat) :
    ref_sum16 p (List.replicate (2 * k) 255 ++ t) = k * 65535 + ref_sum16 p t := by
  induction k generalizing p with
  | zero => simp
  | succ k ih =>
    have e : 2 * (k + 1) = 2 + 2 * k := by ring
    rw [e, List.replicate_add, List.append_assoc]
    show ref_sum16 p (255 :: 255 :: (List.replicate (2 * k) 255 ++ t)) = _
    rw [ref_sum16, ref_sum16, ih (p + 1 + 1),
        ref_sum16_parity t (p + 1 + 1) p (by omega)]
    rcases Nat.even_or_odd p with he | ho
    · have h0 : p % 2 = 0 := Nat.even_iff.mp he
      rw [if_pos h0, if_neg (by omega)]
      ring
    · have h1 : p % 2 = 1 := Nat.odd_iff.mp ho
      rw [if_neg (by omega), if_pos (by omega)]
      ring

/-- Closed form of the end-around-carry fold: the ones' complement
residue, with positive multiples of 65535 represented as 65535. -/
theorem ref_fold_closed (n : Nat) : ref_fold n = if n = 0 then 0 else (n - 1) % 65535 + 1 := by
  induction n using Nat.strong_induction_on with
  | _ n ih =>
    rw [ref_fold]
    split
    case isTrue h =>
      by_cases h0 : n = 0
      · simp [h0]
      · rw [if_neg h0, Nat.mod_eq_of_lt (by omega)]
        omega
    case isFalse h =>
      have hqr := Nat.div_add_mod n 65536
      have hq1 : 1 ≤ n / 65536 := Nat.one_le_div_iff (by norm_num) |>.mpr (by omega)
      have hr := Nat.mod_lt n (show 0 < 65536 by norm_num)
      rw [show n / 2 ^ 16 + n % 2 ^ 16 = n / 65536 + n % 65536 from rfl]
      rw [ih (n / 65536 + n % 65536) (by omega)]
      rw [if_neg (by omega), if_neg (by omega)]
      have e2 : n - 1 = n / 65536 + n % 65536 - 1 + 65535 * (n / 65536) := by omega
      rw [e2, Nat.add_mul_mod_self_left]

/-- The reference byte-by-byte checksum of `c1_bad_buf`: its word sum is
`131074 * 65535 + 1 ≡ 1 (mod 65535)`, so the complemented checksum is
65534. -/
theorem c1_ref_value : internet_checksum 0 c1_bad_buf = 65534 := by
  have e : c1_bad_buf = List.replicate (2 * 131074) 255 ++ [0, 1, 0, 0] := by
    rw [show (2 * 131074 : Nat) = 262148 by norm_num]
    rfl
  have hs : ref_sum16 0 c1_bad_buf = 131074 * 65535 + 1 := by
    rw [e, ref_sum16_rep2_mul]
    norm_num [ref_sum16]
  rw [internet_checksum, hs, ref_fold_closed]
  norm_num

/-- C1: the claim asserts that for every buffer, complementing
`chksum_finalize(chksum_partial(addr, len, offset))` equals the reference
byte-by-byte RFC 1071 Internet checksum.  The code violates this: on the
262152-byte buffer `c1_bad_buf` (partial sum `0x10000FFFFFFFF`) the two
fixed folding rounds of `chksum_finalize` leave `0x1FFFF`, and the final
`uint16_t` cast discards the end-around carry of `0x1FFFF + 1`, returning
0 where the RFC 1071 value is 1; complemented, the code yields 0xFFFF
where the reference checksum is 0xFFFE. -/
theorem C1_finalize_loses_carry :
    2 ^ 16 - 1 - chksum_finalize ( chksum_partial c1_bad_buf 0 0 true) = 65535 ∧
    internet_checksum 0 c1_bad_buf = 65534 ∧
    2 ^ 16 - 1 - chksum_finalize ( chksum_partial c1_bad_buf 0 0 true) ≠
      internet_checksum 0 c1_bad_buf := by
  refine ⟨?_, c1_ref_value, ?_⟩
  · rw [c1_partial_value]
    decide
  · rw [c1_partial_value, c1_ref_value]
    decide

/-- C2 counterexample: a burst of B = 2 of which the first
`odp_pktout_send` call accepts k = 1.  The claim asserts sent += 1,
drop += 1 and the release of the 1 rejected packet with no retry; the
code instead retries the remainder (a second send call), releases
nothing, and — the retry succeeding — increments the sent counter by 2,
not 1. -/
theorem C2_counterexample :
    (send_loop [1, 1] 2).drops = 1 ∧
    sent_inc [1, 1] 2 = 2 ∧ (2 : Nat) ≠ 1 ∧
    (send_loop [1, 1] 2).freed = 0 ∧ (0 : Nat) ≠ 1 ∧
    (send_loop [1, 1] 2).calls = 2 := by
  decide

/-- C2 amended: when the first send call of a burst of size B accepts
`k < B`, the transmitter increments the drop counter by exactly B − k but
releases nothing and calls the send primitive again on the B − k
unaccepted packets; the sent counter is finally incremented by B minus
the burst size still unsent when the loop exits (the total accepted
across all calls), which need not equal k. -/
theorem C2_partial_send_retries :
    ∀ (B k : Nat) (rest : List Int), k < B →
    (send_loop ((k : Int) :: rest) B).drops = (B - k) + (send_loop rest (B - k)).drops ∧
    (send_loop ((k : Int) :: rest) B).freed = (send_loop rest (B - k)).freed ∧
    (send_loop ((k : Int) :: rest) B).calls = (send_loop rest (B - k)).calls + 1 ∧
    sent_inc ((k : Int) :: rest) B = B - (send_loop rest (B - k)).burst_size := by
  intro B k rest h
  have hne : ((k : Int)) ≠ (B : Int) := by exact_mod_cast Nat.ne_of_lt h
  have hcond : (0:Int) ≤ (k:Int) ∧ (k:Int) < (B:Int) :=
    ⟨Int.ofNat_nonneg k, by exact_mod_cast h⟩
  simp only [send_loop, sent_inc, if_neg hne, if_pos hcond, Int.toNat_natCast]
  simp

/-- Witness for `C2_partial_send_retries` at B = 2, k = 1, rest = [1]. -/
theorem C2_partial_send_retries_witness :
    1 < 2 ∧
    ((send_loop ((1 : Int) :: [1]) 2).drops = (2 - 1) + (send_loop [1] (2 - 1)).drops ∧
     (send_loop ((1 : Int) :: [1]) 2).freed = (send_loop [1] (2 - 1)).freed ∧
     (send_loop ((1 : Int) :: [1]) 2).calls = (send_loop [1] (2 - 1)).calls + 1 ∧
     sent_inc ((1 : Int) :: [1]) 2 = 2 - (send_loop [1] (2 - 1)).burst_size) :=
  ⟨by decide, C2_partial_send_retries 2 1 [1] (by decide)⟩

theorem udp_refresh_seq_step (cfg : appl_args_t) (pktout_cfg : pktout_config_t)
    (s : counters_t × udp_pkt_t) :
    (udp_refresh_state cfg pktout_cfg s).1.ctr_seq = s.1.ctr_seq + 1 := by
  by_cases h1 : pktout_cfg.ipv4_chksum <;> by_cases h2 : pktout_cfg.udp_chksum <;>
    simp [udp_refresh_state, setup_udp_pkt, h1, h2]

theorem udp_refresh_iter_seq (cfg : appl_args_t) (pktout_cfg : pktout_config_t)
    (c0 : counters_t) (p0 : udp_pkt_t) (k : Nat) :
    (((udp_refresh_state cfg pktout_cfg)^[k]) (c0, p0)).1.ctr_seq = c0.ctr_seq + k := by
  induction k with
  | zero => simp
  | succ k ih =>
    rw [Function.iterate_succ_apply', udp_refresh_seq_step, ih]
    omega

theorem udp_refresh_id (cfg : appl_args_t) (pktout_cfg : pktout_config_t)
    (s : counters_t × udp_pkt_t) :
    (udp_refresh_state cfg pktout_cfg s).2.ip.id = s.1.ctr_seq % 65535 := by
  have hlt : s.1.ctr_seq % 65535 < 2 ^ 16 := by
    have := Nat.mod_lt s.1.ctr_seq (show 0 < 65535 by norm_num)
    omega
  by_cases h1 : pktout_cfg.ipv4_chksum <;> by_cases h2 : pktout_cfg.udp_chksum <;>
    simp [udp_refresh_state, setup_udp_pkt, h1, h2, odp_cpu_to_be_16, Nat.mod_eq_of_lt] <;>
    omega

theorem udp_issued_eq (cfg : appl_args_t) (pktout_cfg : pktout_config_t)
    (c0 : counters_t) (p0 : udp_pkt_t) (n : Nat) :
    udp_issued cfg pktout_cfg c0 p0 n = (c0.ctr_seq + n) % 65535 := by
  rw [udp_issued, Function.iterate_succ_apply', udp_refresh_id,
      udp_refresh_iter_seq]

/-- C3 counterexample: a single UDP worker starting at sequence cursor 0
(as `main` programs for a lone worker).  The id issued by send number
65535 (0-based 65534) is 65534, and the id issued by the next send is 0 —
not `(65534 + 1) % 65536 = 65535` as the claim's step-1-modulo-65536
progression requires; the value 65535 is skipped because the C code
reduces the cursor `% 0xFFFF` (= 65535), not `% 0x10000`. -/
theorem C3_counterexample :
    udp_issued ⟨0, 0, [], [], 0, 0, 0, 0, 0, 0, 0, 0, 0, 0, false⟩ ⟨false, false⟩
        ⟨0, 0, 0, 0, 0, 0⟩
        ⟨⟨[], [], 0⟩, ⟨0, 0, 0, 0, 0, 0, 0, 0, 0, 0⟩, ⟨0, 0, 0, 0⟩, [], 0, 0, 0, true, true⟩
        65534 = 65534 ∧
    udp_issued ⟨0, 0, [], [], 0, 0, 0, 0, 0, 0, 0, 0, 0, 0, false⟩ ⟨false, false⟩
        ⟨0, 0, 0, 0, 0, 0⟩
        ⟨⟨[], [], 0⟩, ⟨0, 0, 0, 0, 0, 0, 0, 0, 0, 0⟩, ⟨0, 0, 0, 0⟩, [], 0, 0, 0, true, true⟩
        65535 = 0 ∧
    ¬ (udp_issued ⟨0, 0, [], [], 0, 0, 0, 0, 0, 0, 0, 0, 0, 0, false⟩ ⟨false, false⟩
        ⟨0, 0, 0, 0, 0, 0⟩
        ⟨⟨[], [], 0⟩, ⟨0, 0, 0, 0, 0, 0, 0, 0, 0, 0⟩, ⟨0, 0, 0, 0⟩, [], 0, 0, 0, true, true⟩
        65535 =
       (udp_issued ⟨0, 0, [], [], 0, 0, 0, 0, 0, 0, 0, 0, 0, 0, false⟩ ⟨false, false⟩
        ⟨0, 0, 0, 0, 0, 0⟩
        ⟨⟨[], [], 0⟩, ⟨0, 0, 0, 0, 0, 0, 0, 0, 0, 0⟩, ⟨0, 0, 0, 0⟩, [], 0, 0, 0, true, true⟩
        65534 + 1) % 65536) := by
  rw [udp_issued_eq, udp_issued_eq]
  norm_num

/-- C3 amended: on one UDP worker the n-th consecutively issued IPv4 id
is `(cursor₀ + n) % 65535`: the ids strictly increase with step 1 modulo
65535 (not 65536) — after 65534 the next issued value is 0, and the
residue 65535 is never issued. -/
theorem C3_seq_step_mod_65535 :
    ∀ (cfg : appl_args_t) (pktout_cfg : pktout_config_t)
      (c0 : counters_t) (p0 : udp_pkt_t) (n : Nat),
    udp_issued cfg pktout_cfg c0 p0 n = (c0.ctr_seq + n) % 65535 ∧
    udp_issued cfg pktout_cfg c0 p0 (n + 1) =
      (udp_issued cfg pktout_cfg c0 p0 n + 1) % 65535 ∧
    udp_issued cfg pktout_cfg c0 p0 n ≠ 65535 := by
  intro cfg pktout_cfg c0 p0 n
  simp only [udp_issued_eq]
  refine ⟨trivial, by omega, by omega⟩

/-- C4: when the reference-array allocation loop stops at the first
failing element `i < n`, the call returns −1 and the rollback frees
exactly the `i` packets already allocated, leaving 0 packets of the
batch allocated. -/
theorem C4_ref_array_rollback :
    ∀ allocs : List Bool, ref_array_exit allocs < allocs.length →
    (setup_pkt_ref_array allocs).ret = -1 ∧
    (setup_pkt_ref_array allocs).freed = (setup_pkt_ref_array allocs).allocated ∧
    (setup_pkt_ref_array allocs).allocated - (setup_pkt_ref_array allocs).freed = 0 := by
  intro allocs h
  simp [setup_pkt_ref_array, if_pos h]

/-- Witness for `C4_ref_array_rollback`: a 3-element batch whose second
allocation fails. -/
theorem C4_ref_array_rollback_witness :
    ref_array_exit [true, false, true] < ([true, false, true] : List Bool).length ∧
    ((setup_pkt_ref_array [true, false, true]).ret = -1 ∧
     (setup_pkt_ref_array [true, false, true]).freed =
       (setup_pkt_ref_array [true, false, true]).allocated ∧
     (setup_pkt_ref_array [true, false, true]).allocated -
       (setup_pkt_ref_array [true, false, true]).freed = 0) :=
  ⟨by decide, C4_ref_array_rollback [true, false, true] (by decide)⟩

/-- C5: the claim asserts that a send-batch setup failing at slot i
releases all i aliases already produced.  The code violates this: the
rollback is `odp_packet_free_multi(pkt_array, i - 1)` under `if (i)`, so
it frees only i − 1 aliases.  Concretely, for a 2-slot batch whose
per-packet refresh fails at slot 1, one alias was produced at slot 0,
the call returns −1 and frees nothing: exactly one alias leaks. -/
theorem C5_pkt_array_leak :
    setup_pkt_array [(true, true), (false, true)] = ⟨-1, 1, 0⟩ ∧
    (setup_pkt_array [(true, true), (false, true)]).aliases -
      (setup_pkt_array [(true, true), (false, true)]).freed = 1 := by
  decide

/-- C6: an echo reply whose embedded send time is T and whose receive
time is T + 5,250,000 ns increments the reply counter and reports RTT
"5.250 ms"; in general the RTT renders as whole milliseconds, a dot, and
the remaining microseconds zero-padded to three digits. -/
theorem C6_rtt_format :
    ∀ (c : counters_t) (T s : Nat),
    process_icmp_pkt c ICMP_ECHOREPLY T (T + 5250000) s =
      ({ c with ctr_icmp_reply_rcv := c.ctr_icmp_reply_rcv + 1 },
       "ICMP Echo Reply seq " ++ toString (odp_be_to_cpu_16 s) ++ " time " ++
         rtt_string 5 250) ∧
    rtt_string 5 250 = "5.250 ms" ∧
    (∀ (c' : counters_t) (d : Nat),
      (process_icmp_pkt c' ICMP_ECHOREPLY 0 d s).2 =
        "ICMP Echo Reply seq " ++ toString (odp_be_to_cpu_16 s) ++ " time " ++
          rtt_string (d / 1000000) (d / 1000 % 1000)) := by
  intro c T s
  refine ⟨?_, by decide, ?_⟩
  · simp [process_icmp_pkt, ODP_TIME_MSEC_IN_NS, ODP_TIME_USEC_IN_NS,
      Nat.add_sub_cancel_left]
  · intro c' d
    have hdd : d / 1000000 = d / 1000 / 1000 := by
      rw [Nat.div_div_eq_div_mul]
    have hus : d / 1000 - 1000 * (d / 1000000) = d / 1000 % 1000 := by
      rw [hdd]
      omega
    simp [process_icmp_pkt, ODP_TIME_MSEC_IN_NS, ODP_TIME_USEC_IN_NS, hus]

/-- C7: a hard-errored inbound packet is freed immediately and excluded
from classification — it changes no counter; a packet flagged only with
bad checksums (the flags are merely printed) is classified exactly as the
same packet without those flags. -/
theorem C7_recv_error_filter :
    ∀ (t : Nat) (c : counters_t) (p : rx_pkt_t) (es : List rx_pkt_t),
    (p.has_error = true →
      (gen_recv_iteration t c (p :: es)).counters = (gen_recv_iteration t c es).counters ∧
      (gen_recv_iteration t c (p :: es)).freed_err = (gen_recv_iteration t c es).freed_err + 1 ∧
      (gen_recv_iteration t c (p :: es)).freed_end = (gen_recv_iteration t c es).freed_end) ∧
    (∀ b1 b2 : Bool,
      (gen_recv_iteration t c ({ p with l3_csum_bad := b1, l4_csum_bad := b2 } :: es)).counters =
        (gen_recv_iteration t c (p :: es)).counters) := by
  intro t c p es
  constructor
  · intro h
    simp [gen_recv_iteration, collect_pkts, h]
  · intro b1 b2
    by_cases h : p.has_error
    · simp [gen_recv_iteration, collect_pkts, h]
    · simp only [gen_recv_iteration, collect_pkts]
      simp [h, print_pkts, print_pkts_step]

/-- Witness for `C7_recv_error_filter`: a UDP packet carrying both the
hard-error flag and a bad transport checksum, drained alone. -/
theorem C7_recv_error_filter_witness :
    (⟨true, 17, 0, 0, 0, false, true, true⟩ : rx_pkt_t).has_error = true ∧
    ((gen_recv_iteration 0 ⟨0, 0, 0, 0, 0, 0⟩
        ((⟨true, 17, 0, 0, 0, false, true, true⟩ : rx_pkt_t) :: [])).counters =
      (gen_recv_iteration 0 ⟨0, 0, 0, 0, 0, 0⟩ []).counters ∧
     (gen_recv_iteration 0 ⟨0, 0, 0, 0, 0, 0⟩
        ((⟨true, 17, 0, 0, 0, false, true, true⟩ : rx_pkt_t) :: [])).freed_err =
      (gen_recv_iteration 0 ⟨0, 0, 0, 0, 0, 0⟩ []).freed_err + 1 ∧
     (gen_recv_iteration 0 ⟨0, 0, 0, 0, 0, 0⟩
        ((⟨true, 17, 0, 0, 0, false, true, true⟩ : rx_pkt_t) :: [])).freed_end =
      (gen_recv_iteration 0 ⟨0, 0, 0, 0, 0, 0⟩ []).freed_end) :=
  ⟨rfl, (C7_recv_error_filter 0 ⟨0, 0, 0, 0, 0, 0⟩
      ⟨true, 17, 0, 0, 0, false, true, true⟩ []).1 rfl⟩

/-- C8 counterexample: in ping mode with a single available worker the
program aborts (`exit(EXIT_FAILURE)`, modelled `none`) instead of
resolving the worker count to two. -/
theorem C8_counterexample :
    resolve_num_workers APPL_MODE_PING 1 = none ∧ (none : Option Nat) ≠ some 2 := by
  decide

/-- C8 amended: in ping mode the resolved worker count is exactly two
whenever at least two workers are available, regardless of how many were
requested; with fewer than two the run aborts instead. -/
theorem C8_ping_two_workers :
    ∀ n : Nat, (2 ≤ n → resolve_num_workers APPL_MODE_PING n = some 2) ∧
      (n < 2 → resolve_num_workers APPL_MODE_PING n = none) := by
  intro n
  constructor <;> intro h <;> simp [resolve_num_workers, APPL_MODE_PING] <;> omega

/-- Witness for `C8_ping_two_workers` at n = 32. -/
theorem C8_ping_two_workers_witness :
    2 ≤ 32 ∧ resolve_num_workers APPL_MODE_PING 32 = some 2 :=
  ⟨by decide, (C8_ping_two_workers 32).1 (by decide)⟩

theorem stop_ping_loop_le (obs : Nat → Nat × Nat) :
    ∀ (n : Nat) (idx : Nat) (timeout : Int), (timeout + 1).toNat ≤ n →
      stop_ping_loop obs idx timeout ≤ timeout := by
  intro n
  induction n with
  | zero =>
    intro idx timeout h
    rw [stop_ping_loop, if_pos (by omega)]
  | succ n ih =>
    intro idx timeout h
    rw [stop_ping_loop]
    by_cases h0 : timeout < 0
    · rw [if_pos h0]
    · rw [if_neg h0]
      by_cases h1 : (obs idx).2 ≥ (obs idx).1
      · rw [if_pos h1]
      · rw [if_neg h1]
        have := ih (idx + 1) (timeout - 1) (by omega)
        omega

/-- C9 counterexample: with payload configured to 18, the worker-thread
operation `setup_icmp_pkt_ref` returns a changed configuration — it
writes `args->appl.payload = 56` after the workers are spawned. -/
theorem C9_counterexample :
    (setup_icmp_pkt_ref ⟨0, 0, [], [], 0, 0, 0, 0, 1, 0, 18, 0, 0, 0, false⟩
        ⟨false, false⟩ true ⟨0, 0, 0, [], [], 0⟩).1 ≠
      ⟨0, 0, [], [], 0, 0, 0, 0, 1, 0, 18, 0, 0, 0, false⟩ := by
  decide

/-- C9 amended: the UDP template builder and both per-send refreshers
leave the shared configuration unchanged, but the ping-mode reference
builder overwrites its `payload` field with 56, and the ping grace
period rewrites (decrements) its `timeout` field — the configuration's
other fields are untouched. -/
theorem C9_config_written_post_spawn :
    ∀ (cfg : appl_args_t) (pcfg : pktout_config_t) (ok : Bool) (fresh : fresh_buf_t)
      (pu : udp_pkt_t) (pi : icmp_pkt_t) (c : counters_t) (tval : Nat)
      (obs : Nat → Nat × Nat),
    (setup_udp_pkt_ref cfg pcfg ok fresh).1 = cfg ∧
    (setup_udp_pkt cfg pcfg pu c).1 = cfg ∧
    (setup_icmp_pkt cfg pcfg pi c tval).1 = cfg ∧
    (setup_icmp_pkt_ref cfg pcfg ok fresh).1 = { cfg with payload := 56 } ∧
    garceful_stop_ping obs cfg =
      { cfg with timeout := (garceful_stop_ping obs cfg).timeout } ∧
    (garceful_stop_ping obs cfg).timeout ≤ cfg.timeout := by
  intro cfg pcfg ok fresh pu pi c tval obs
  refine ⟨?_, ?_, ?_, ?_, ?_, ?_⟩
  · cases ok <;> simp [setup_udp_pkt_ref]
  · simp [setup_udp_pkt]
  · simp [setup_icmp_pkt]
  · cases ok <;> simp [setup_icmp_pkt_ref]
  · by_cases hm : cfg.mode ≠ APPL_MODE_PING
    · simp [garceful_stop_ping, hm]
    · simp [garceful_stop_ping, hm]
  · by_cases hm : cfg.mode ≠ APPL_MODE_PING
    · simp [garceful_stop_ping, hm]
    · rw [garceful_stop_ping, if_neg hm]
      exact stop_ping_loop_le obs (cfg.timeout + 1).toNat 0 cfg.timeout (Nat.le_refl _)

/-- C10: after every ping-mode per-send refresh, the ICMP echo sequence
field equals the IPv4 id field, and both hold the big-endian image of the
worker's sequence cursor reduced `% 0xffff`. -/
theorem C10_icmp_seq_eq_ip_id :
    ∀ (cfg : appl_args_t) (pcfg : pktout_config_t) (p : icmp_pkt_t)
      (c : counters_t) (tval : Nat),
    (setup_icmp_pkt cfg pcfg p c tval).2.1.icmp.echo_sequence =
      (setup_icmp_pkt cfg pcfg p c tval).2.1.ip.id ∧
    (setup_icmp_pkt cfg pcfg p c tval).2.1.ip.id =
      odp_cpu_to_be_16 (c.ctr_seq % 0xffff) := by
  intro cfg pcfg p c tval
  by_cases h : pcfg.ipv4_chksum <;>
    simp [setup_icmp_pkt, h, odp_cpu_to_be_16]
